import Mathlib

/-!
Shallow embedding of the core AST / type-system / code-generator module of the
cloak-compiler repository (src/cloak/cloak_ast/ast.py and build_ast.py).

Conventions of the embedding:
- Python ints are Lean Int (arbitrary precision, as in Python); bit widths are Nat.
- Python object identity (used by the source for Identifier, Expression and
  declaration equality, since those classes define no custom eq) is modelled by
  a Nat identity tag.
- Python functions that can raise are modelled with Option / Except; an
  AssertionError raised by an assert statement is a distinguished error value.
- The external PartitionState oracle is modelled as an optional Boolean
  relation on canonical privacy-label keys, mirroring the optional analysis
  argument of AnnotatedTypeName.combined_privacy.
-/

/-! ## Privacy layer (ast.py: Expression.privacy_annotation_label, MeExpr /
AllExpr / TeeExpr, AnnotatedTypeName.combined_privacy) -/

/-- Canonical privacy-label keys: the results of privacy_annotation_label.
idL carries the identity of the target declaration's Identifier object
(Identifier has no custom eq in the source, so labels of named owners compare
by object identity). -/
inductive PrivacyLabel where
  | allL : PrivacyLabel
  | meL : PrivacyLabel
  | teeL : PrivacyLabel
  | idL : Nat → PrivacyLabel
deriving DecidableEq, Repr

/-- Privacy-label expressions, the shapes Expression.privacy_annotation_label
distinguishes: the three context-free singletons AllExpr / MeExpr / TeeExpr, an
IdentifierExpr whose resolved (non-mapping) target declaration has the given
Identifier object identity, and any other expression form (which has no label). -/
inductive PrivacyExpr where
  | allE : PrivacyExpr
  | meE : PrivacyExpr
  | teeE : PrivacyExpr
  | idfE : Nat → PrivacyExpr
  | otherE : PrivacyExpr
deriving DecidableEq, Repr

/-- Expression.privacy_annotation_label: IdentifierExpr resolves to its
target's Identifier, the three singletons resolve to themselves, everything
else yields None. -/
def privacyAnnotLabel : PrivacyExpr → Option PrivacyLabel
  | .allE => some .allL
  | .meE => some .meL
  | .teeE => some .teeL
  | .idfE n => some (.idL n)
  | .otherE => none

/-- Expression.is_all_expr: equality against the AllExpr singleton, whose
custom eq is an isinstance test. -/
def isAllExprB : PrivacyExpr → Bool
  | .allE => true
  | _ => false

/-! ## Type-name hierarchy (ast.py: TypeName and subclasses) -/

/-- The scalar TypeName variants exercised by the claims.  numAny is an
instance of the exact class NumberTypeName (NumberTypeName.any(), name '',
signed, 256 bits).  intT b / uintT b are IntTypeName / UintTypeName with
declared suffix b (b = 0 encodes the bare names int / uint, whose stored size
is 0 meaning generic 256-bit).  numLitT v is NumberLiteralType carrying the
literal value. -/
inductive TyName where
  | boolT : TyName
  | boolLitT : Bool → TyName
  | numAny : TyName
  | intT : Nat → TyName
  | uintT : Nat → TyName
  | numLitT : Int → TyName
  | addressT : TyName
  | addressPayableT : TyName
deriving DecidableEq, Repr

/-- Python int.bit_length of a nonnegative number. -/
def natBitLen (n : Nat) : Nat :=
  if n = 0 then 0 else Nat.log2 n + 1

/-- The bit width NumberLiteralType.__init__ derives before its assert:
bit length of the magnitude, plus one sign bit for negatives other than exact
negative powers of two, rounded up to the next multiple of 8, minimum 8.
(The source rounds via math.ceil(bitwidth / 8.0) * 8.) -/
def litBitwidth (v : Int) : Nat :=
  let blen := natBitLen v.natAbs
  let bw := if v < 0 then (if v = -((2 ^ (blen - 1) : Nat) : Int) then blen else blen + 1)
            else blen
  max (((bw + 7) / 8) * 8) 8

/-- NumberLiteralType.__init__: derives the width and then asserts
8 <= bitwidth <= 256 and bitwidth mod 8 = 0; a failing assert is a fault,
modelled as none.  There is no clamping in the source. -/
def mkNumberLiteralType (v : Int) : Option TyName :=
  let bw := litBitwidth v
  if 8 ≤ bw ∧ bw ≤ 256 ∧ bw % 8 = 0 then some (.numLitT v) else none

/-- The name string stored by the NumberTypeName constructor for each numeric
variant (used by NumberTypeName.__eq__, which compares names). -/
def numName : TyName → String
  | .numAny => ""
  | .intT b => "int" ++ (if b = 0 then "" else toString b)
  | .uintT b => "uint" ++ (if b = 0 then "" else toString b)
  | .numLitT v => toString v
  | _ => ""

/-- isinstance(t, NumberTypeName). -/
def isNumberTN : TyName → Bool
  | .numAny => true
  | .intT _ => true
  | .uintT _ => true
  | .numLitT _ => true
  | _ => false

/-- type(t) == NumberTypeName exactly (not a subclass): only
NumberTypeName.any() instances in this module. -/
def isExactNumberTN : TyName → Bool
  | .numAny => true
  | _ => false

/-- TypeName.is_literal (restricted to the modelled variants; the source also
counts EnumValueTypeName). -/
def isLiteralTN : TyName → Bool
  | .boolLitT _ => true
  | .numLitT _ => true
  | _ => false

/-- TypeName.is_address. -/
def isAddressTN : TyName → Bool
  | .addressT => true
  | .addressPayableT => true
  | _ => false

/-- Python eq between TypeNames, following each class's custom eq:
BoolTypeName / BooleanLiteralType / NumberLiteralType / AddressTypeName /
AddressPayableTypeName compare by isinstance only (literal types ignore their
carried value), while NumberTypeName compares by isinstance plus name string. -/
def tyNameEq (a b : TyName) : Bool :=
  match a with
  | .boolT => match b with | .boolT => true | _ => false
  | .boolLitT _ => match b with | .boolLitT _ => true | _ => false
  | .numLitT _ => match b with | .numLitT _ => true | _ => false
  | .numAny => isNumberTN b && (numName .numAny == numName b)
  | .intT k => isNumberTN b && (numName (.intT k) == numName b)
  | .uintT k => isNumberTN b && (numName (.uintT k) == numName b)
  | .addressT => match b with | .addressT => true | _ => false
  | .addressPayableT => match b with | .addressPayableT => true | _ => false

/-- elem_bitwidth per variant: bool and boolean literals are 1 bit, number
types report 256 when their stored size is 0 (unset), number literals report
their derived width, address types are 160 bits. -/
def elemBitwidth : TyName → Nat
  | .boolT => 1
  | .boolLitT _ => 1
  | .numAny => 256
  | .intT b => if b = 0 then 256 else b
  | .uintT b => if b = 0 then 256 else b
  | .numLitT v => litBitwidth v
  | .addressT => 160
  | .addressPayableT => 160

/-- The signed flag stored by the NumberTypeName constructor (only meaningful
for numeric variants). -/
def signedTN : TyName → Bool
  | .numAny => true
  | .intT _ => true
  | .uintT _ => false
  | .numLitT v => v < 0
  | _ => false

/-- NumberTypeName.can_represent: lo <= value < hi with
lo = -(1 shl (w-1)) if signed else 0, hi = (1 shl (w-1)) if signed else (1 shl w). -/
def canRepresent (t : TyName) (v : Int) : Bool :=
  let w := elemBitwidth t
  let lo : Int := if signedTN t then -((2 : Int) ^ (w - 1)) else 0
  let hi : Int := if signedTN t then (2 : Int) ^ (w - 1) else (2 : Int) ^ w
  lo ≤ v && v < hi

/-- implicitly_convertible_to, following the per-class overrides:
the base rule is expected == self (dispatched on expected);
BooleanLiteralType adds BoolTypeName targets;
NumberTypeName adds targets of the exact class NumberTypeName;
IntTypeName / UintTypeName add widening within the same family;
NumberLiteralType converts to any non-literal numeric type that can represent
its value, and to address types when unsigned and exactly 160 bits wide;
AddressPayableTypeName adds the address type. -/
def implicitlyConvertibleTo (self expected : TyName) : Bool :=
  match self with
  | .boolT => tyNameEq expected .boolT
  | .boolLitT bv =>
      tyNameEq expected (.boolLitT bv) ||
      (match expected with | .boolT => true | _ => false)
  | .numAny => tyNameEq expected .numAny || isExactNumberTN expected
  | .intT b =>
      (tyNameEq expected (.intT b) || isExactNumberTN expected) ||
      (match expected with
       | .intT _ => elemBitwidth expected ≥ elemBitwidth (.intT b)
       | _ => false)
  | .uintT b =>
      (tyNameEq expected (.uintT b) || isExactNumberTN expected) ||
      (match expected with
       | .uintT _ => elemBitwidth expected ≥ elemBitwidth (.uintT b)
       | _ => false)
  | .numLitT v =>
      if isNumberTN expected && !isLiteralTN expected then canRepresent expected v
      else if isAddressTN expected && (elemBitwidth (.numLitT v) == 160) && !(v < 0) then true
      else tyNameEq expected (.numLitT v) || isExactNumberTN expected
  | .addressT => tyNameEq expected .addressT
  | .addressPayableT => tyNameEq expected .addressPayableT || tyNameEq expected .addressT

/-- NumberLiteralType.to_abstract_type / BooleanLiteralType.to_abstract_type.
Only literal types are widened in the source; other variants are unreachable
arguments and kept fixed. -/
def toAbstractType : TyName → TyName
  | .numLitT v => if v < 0 then .intT (litBitwidth v) else .uintT (litBitwidth v)
  | .boolLitT _ => .boolT
  | t => t

/-- Result of combined_type: a TypeName, the string marker 'lit' for
still-literal, or None (no common type). -/
inductive CombinedRes where
  | ty : TyName → CombinedRes
  | stillLit : CombinedRes
  | noCommon : CombinedRes
deriving DecidableEq, Repr

/-- TypeName.combined_type (the base rule): whichever side the other converts
into, else None. -/
def combinedBase (self other : TyName) : CombinedRes :=
  if implicitlyConvertibleTo other self then .ty self
  else if implicitlyConvertibleTo self other then .ty other
  else .noCommon

/-- Number of literal layers; the literal override replaces literals by their
abstract types, which is what makes combined_type terminate. -/
def litRank : TyName → Nat
  | .numLitT _ => 1
  | .boolLitT _ => 1
  | _ => 0

theorem litRank_toAbstractType (t : TyName) : litRank (toAbstractType t) = 0 := by
  cases t <;> try rfl
  next v =>
    simp only [toAbstractType]
    by_cases h : v < 0 <;> simp [h, litRank]

/-- combined_type with dynamic dispatch: the BooleanLiteralType override maps
two boolean literals to bool (or 'lit'), the NumberLiteralType override maps
two number literals to 'lit' or recurses on the widened abstract types, and
every other pair falls back to the base rule. -/
def combinedType (self other : TyName) (convertLiterals : Bool) : CombinedRes :=
  match self, other with
  | .boolLitT _, .boolLitT _ => if convertLiterals then .ty .boolT else .stillLit
  | .numLitT v, .numLitT w =>
      if convertLiterals then
        combinedType (toAbstractType (.numLitT v)) (toAbstractType (.numLitT w)) convertLiterals
      else .stillLit
  | a, b => combinedBase a b
termination_by litRank self + litRank other
decreasing_by
  have hv := litRank_toAbstractType (TyName.numLitT v)
  have hw := litRank_toAbstractType (TyName.numLitT w)
  simp only [litRank] at *
  omega

/-! ## Annotated types and combined_privacy -/

/-- AnnotatedTypeName restricted to scalar (non-tuple) type names, as in the
scalar branch of combined_privacy: a type name plus a privacy-label
expression (the default when no explicit label was written is AllExpr). -/
structure AnnotatedScalar where
  typeName : TyName
  privAnnot : PrivacyExpr
deriving DecidableEq, Repr

/-- PartitionState.same_partition guarded by the analysis-is-not-None test of
combined_privacy; the oracle itself is external and modelled as an arbitrary
Boolean relation on label keys. -/
def samePartition (analysis : Option (PrivacyLabel → PrivacyLabel → Bool))
    (pe pa : PrivacyLabel) : Bool :=
  match analysis with
  | some f => f pe pa
  | none => false

/-- AnnotatedTypeName.combined_privacy, scalar branch: resolve both sides to
label keys; if either side has no key, return None; if the keys are equal or
the oracle places them in one partition, return this side's label expression;
otherwise, if this side is the AllExpr singleton, return the other side's
label expression; otherwise fall through (Python implicitly returns None). -/
def combinedPrivacy (analysis : Option (PrivacyLabel → PrivacyLabel → Bool))
    (self other : AnnotatedScalar) : Option PrivacyExpr :=
  match privacyAnnotLabel other.privAnnot, privacyAnnotLabel self.privAnnot with
  | some pe, some pa =>
      if pe = pa || samePartition analysis pe pa then some self.privAnnot
      else if isAllExprB self.privAnnot then some other.privAnnot
      else none
  | _, _ => none

/-! ## Instance-target canonicalization (ast.py: InstanceTarget) -/

/-- Assignable-location expression shapes, with Python object identities as
Nat tags: an IdentifierExpr (with its optional resolved target declaration),
a MemberAccessExpr (base expression plus member Identifier identity), and an
IndexExpr (array expression plus key-expression identity).  Expression and
Identifier objects compare by identity in the source, hence the Nat tags. -/
inductive LocExprT where
  | identE : Nat → Option Nat → LocExprT
  | memberE : Nat → LocExprT → Nat → LocExprT
  | indexE : Nat → LocExprT → Nat → LocExprT
deriving DecidableEq, Repr

/-- LocationExpr.target; only identifier expressions are resolved by the
symbol table in the modelled fragment (other nodes keep the default None). -/
def targetOf : LocExprT → Option Nat
  | .identE _ t => t
  | _ => none

/-- IndexExpr.get_leftmost_identifier: walk through nested IndexExprs; a
non-identifier leftmost base raises CloakCompilerError (modelled as none). -/
def leftmostIdentOf : LocExprT → Option LocExprT
  | .identE n t => some (.identE n t)
  | .memberE _ _ _ => none
  | .indexE _ arr _ => leftmostIdentOf arr

/-- The InstanceTarget triple: declaration identity, member-Identifier or
key-Expression identity, full-index-expression identity. -/
structure InstanceTarget where
  target : Nat
  keyPart : Option Nat
  idxPart : Option Nat
deriving DecidableEq, Repr

/-- InstanceTarget.__new__: identifier yields (target, None, None); member
access yields (base target, member, None); index yields (leftmost identifier
target, key, the index expression itself).  The final assert demands a
resolved declaration in slot 0 (an unresolved None target faults). -/
def mkInstanceTarget : LocExprT → Option InstanceTarget
  | .identE _ t =>
      match t with
      | some d => some ⟨d, none, none⟩
      | none => none
  | .memberE _ base mem =>
      match targetOf base with
      | some d => some ⟨d, some mem, none⟩
      | none => none
  | .indexE nid arr key =>
      match leftmostIdentOf arr with
      | some lm =>
          match targetOf lm with
          | some d => some ⟨d, some key, some nid⟩
          | none => none
      | none => none

/-- InstanceTarget.__hash__ is hash(self[:]), a function of the component
triple alone; modelled by an explicit encoding of the triple. -/
def instanceTargetHash (t : InstanceTarget) : Nat :=
  let enc : Option Nat → Nat := fun o => match o with | none => 0 | some n => n + 1
  (t.target * 1000003 + enc t.keyPart) * 1000003 + enc t.idxPart

/-! ## Contract definitions and the constructor lookup
(ast.py: ConstructorOrFunctionDefinition.__init__, ContractDefinition) -/

/-- Faults raised during construction / lookup. -/
inductive LookupError where
  | assertionFailed : LookupError
  | valueError : String → LookupError
deriving DecidableEq, Repr

/-- ConstructorOrFunctionDefinition, reduced to the fields the constructor
lookup inspects: the (optional) Identifier and the kind string. -/
structure CoFDef where
  idf : Option Nat
  kind : String
deriving DecidableEq, Repr

/-- ConstructorOrFunctionDefinition.__init__ begins with assert idf, so a
None identifier faults before any field is set. -/
def mkConstructorOrFunctionDef (idf : Option Nat) (kind : String) :
    Except LookupError CoFDef :=
  match idf with
  | none => .error .assertionFailed
  | some i => .ok ⟨some i, kind⟩

/-- A contract body member: a function/constructor definition or any other
unit (state variable, struct, ...). -/
inductive ContractUnit where
  | fn : CoFDef → ContractUnit
  | otherU : Nat → ContractUnit
deriving DecidableEq, Repr

structure ContractDef where
  units : List ContractUnit
deriving DecidableEq, Repr

/-- ContractDefinition.constructor_definitions: the members that are
ConstructorOrFunctionDefinitions of kind constructor, in order. -/
def constructorDefinitions (c : ContractDef) : List CoFDef :=
  c.units.filterMap fun u =>
    match u with
    | .fn f => if f.kind == "constructor" then some f else none
    | .otherU _ => none

/-- ContractDefinition.__getitem__ with key constructor: with no declared
constructor it builds ConstructorOrFunctionDefinition(None, [], [], None,
Block([])) - note the None identifier and the default kind "function" - with
exactly one it returns it, and with several it raises ValueError. -/
def contractGetConstructor (c : ContractDef) : Except LookupError CoFDef :=
  match constructorDefinitions c with
  | [] => mkConstructorOrFunctionDef none "function"
  | [f] => .ok f
  | _ => .error (.valueError "Multiple constructors exist")

/-! ## Code generator fragment (ast.py: CodeVisitor; build_ast.py:
visitAssignmentExpr, _handle_crement_expr) -/

/-- Python str.startswith on character lists. -/
def listStarts : List Char → List Char → Bool
  | _, [] => true
  | [], _ :: _ => false
  | c :: cs, p :: ps => c == p && listStarts cs ps

/-- Python s.startswith(p). -/
def strStarts (s p : String) : Bool :=
  listStarts s.data p.data

/-- Python s[n:] (drop the first n characters). -/
def dropChars (n : Nat) (s : String) : String :=
  ⟨s.data.drop n⟩

/-- Python s[:-1] (drop the last character; empty stays empty). -/
def dropLastChar (s : String) : String :=
  ⟨s.data.dropLast⟩

/-- The keys of the builtin_functions table (builtin operator catalog). -/
def builtinOpNames : List String :=
  ["parenthesis", "ite", "**", "*", "/", "%", "+", "-", "sign+", "sign-",
   "<", ">", "<=", ">=", "==", "!=", "&&", "||", "!", "|", "&", "^", "~",
   "<<", ">>"]

/-- The binary operators whose template in builtin_functions is
left-space-op-space-right. -/
def binaryOpNames : List String :=
  ["**", "*", "/", "%", "+", "-", "<", ">", "<=", ">=", "==", "!=",
   "&&", "||", "|", "&", "^", "<<", ">>"]

/-- BuiltinFunction.format_string().format(args): the fixed per-operator
template of builtin_functions applied to the visited argument strings.
Too few arguments is a fault (none), as is an unknown operator (the
BuiltinFunction constructor would already have rejected it). -/
def formatBuiltin (op : String) (args : List String) : Option String :=
  if binaryOpNames.contains op then
    match args with
    | a :: b :: _ => some (a ++ " " ++ op ++ " " ++ b)
    | _ => none
  else if op == "sign+" then
    match args with | a :: _ => some ("+" ++ a) | _ => none
  else if op == "sign-" then
    match args with | a :: _ => some ("-" ++ a) | _ => none
  else if op == "!" then
    match args with | a :: _ => some ("!" ++ a) | _ => none
  else if op == "~" then
    match args with | a :: _ => some ("~" ++ a) | _ => none
  else if op == "parenthesis" then
    match args with | a :: _ => some ("(" ++ a ++ ")") | _ => none
  else if op == "ite" then
    match args with
    | a :: b :: c :: _ => some (a ++ " ? " ++ b ++ " : " ++ c)
    | _ => none
  else none

/-- Python hex(v), lowercase with 0x and a leading minus for negatives. -/
def hexString (v : Int) : String :=
  (if v < 0 then "-0x" else "0x") ++ ⟨Nat.toDigits 16 v.natAbs⟩

/-- The expression nodes the rendering claims exercise: IdentifierExpr (name
plus the optional annotated type a checker may have set), NumberLiteralExpr
(value, hex flag, optional verbatim source text, optional unit suffix),
FunctionCallExpr over a BuiltinFunction (operator plus argument list), and
SliceExpr (array expression, optional base expression, start offset, size). -/
inductive CExpr where
  | identifierE : String → Option AnnotatedScalar → CExpr
  | numberLitE : Int → Bool → Option String → Option String → CExpr
  | builtinCallE : String → List CExpr → CExpr
  | sliceX : CExpr → Option CExpr → Int → Nat → CExpr

/-- Expression.annotated_type: IdentifierExpr carries whatever the checker
set (default None); NumberLiteralExpr sets AnnotatedTypeName(
NumberLiteralType(value)) at construction, whose default label is public;
FunctionCallExpr and SliceExpr default to None. -/
def annotatedTypeOf : CExpr → Option AnnotatedScalar
  | .identifierE _ a => a
  | .numberLitE v _ _ _ => some ⟨.numLitT v, .allE⟩
  | .builtinCallE _ _ => none
  | .sliceX _ _ _ _ => none

mutual

/-- CodeVisitor.visit on the modelled expressions: identifiers print their
name; number literals prefer verbatim source text, else the value honoring
hex-ness plus the unit suffix; builtin calls visit every argument and apply
the operator template; a SliceExpr has no rendering rule (visitAST raises
NotImplementedError, modelled as none). -/
def render : CExpr → Option String
  | .identifierE name _ => some name
  | .numberLitE v wasHex srcText unitSfx =>
      match srcText with
      | some s => some s
      | none =>
          let unitStr := match unitSfx with | some u => " " ++ u | none => ""
          let valStr := if wasHex then hexString v else toString v
          some (valStr ++ unitStr)
  | .builtinCallE op args => do
      let ss ← renderAll args
      formatBuiltin op ss
  | .sliceX _ _ _ _ => none

/-- Visiting a list of call arguments in order. -/
def renderAll : List CExpr → Option (List String)
  | [] => some []
  | e :: es => do
      let s ← render e
      let ss ← renderAll es
      pure (s :: ss)

end

/-- AssignmentStatement: lhs, rhs and the normalization marker op (empty
string for a plain assignment). -/
structure AssignmentStatementS where
  lhs : CExpr
  rhs : CExpr
  op : String

/-- The three format templates visitAssignmentStatement chooses between,
applied to (lhs text, op text, rhs text). -/
inductive AssignFmt where
  | preF : AssignFmt
  | postF : AssignFmt
  | defF : AssignFmt
deriving DecidableEq, Repr

/-- fstr.format(lhs, op, rhs) for each template: pre-crement is op then lhs,
post-crement is lhs then op, default is lhs space op equals space rhs. -/
def applyFmt : AssignFmt → String → String → String → String
  | .preF, a, o, _ => o ++ a ++ ";"
  | .postF, a, o, _ => a ++ o ++ ";"
  | .defF, a, o, r => a ++ " " ++ o ++ "= " ++ r ++ ";"

/-- Faults of visitAssignmentStatement: the equal-slice-size assert, and any
raised rendering fault (missing rule, malformed rhs extraction). -/
inductive RenderErr where
  | sizeMismatch : RenderErr
  | renderFault : RenderErr
deriving DecidableEq, Repr

def liftOpt : Option String → Except RenderErr String
  | some s => .ok s
  | none => .error .renderFault

/-- The accumulation loop of the slice branch: for i in range(n) append
line(i) plus a newline. -/
def sliceConcat (line : Nat → String) : Nat → String
  | 0 => ""
  | n + 1 => sliceConcat line n ++ (line n ++ "\n")

/-- CodeVisitor.visitAssignmentStatement: clear the shorthand marker when the
lhs is typed private; with a marker, the printed rhs is the second argument
of the embedded operator call; choose the template from the marker (pre/post
crement or default); expand equal-size slice-to-slice assignments into one
per-element assignment each indexing base + start_offset + i, joined by
newlines with the trailing newline stripped (unequal sizes fail the assert);
otherwise render both sides and apply the template. -/
def visitAssignmentStatement (st : AssignmentStatementS) : Except RenderErr String :=
  let isPriv := match annotatedTypeOf st.lhs with
    | some a => !isAllExprB a.privAnnot
    | none => false
  let op1 := if isPriv then "" else st.op
  let rhsRes : Except RenderErr CExpr :=
    if op1 ≠ "" then
      match st.rhs with
      | .builtinCallE _ args =>
          match args[1]? with
          | some e => .ok e
          | none => .error .renderFault
      | _ => .error .renderFault
    else .ok st.rhs
  let fmtOp : AssignFmt × String :=
    if strStarts op1 "pre" then (.preF, dropChars 3 op1)
    else if strStarts op1 "post" then (.postF, dropChars 4 op1)
    else (.defF, op1)
  do
    let rhs ← rhsRes
    match st.lhs, rhs with
    | .sliceX larr lbase loff lsz, .sliceX rarr rbase roff rsz =>
        if lsz ≠ rsz then .error .sizeMismatch
        else do
          let lexpr ← liftOpt (render larr)
          let rexpr ← liftOpt (render rarr)
          let lb ← match lbase with
            | none => pure ""
            | some b => do
                let s ← liftOpt (render b)
                pure (s ++ " + ")
          let rb ← match rbase with
            | none => pure ""
            | some b => do
                let s ← liftOpt (render b)
                pure (s ++ " + ")
          pure (dropLastChar (sliceConcat
            (fun i => applyFmt fmtOp.1
              (lexpr ++ "[" ++ lb ++ toString (loff + (i : Int)) ++ "]")
              fmtOp.2
              (rexpr ++ "[" ++ rb ++ toString (roff + (i : Int)) ++ "]"))
            lsz))
    | lhsE, rhsE => do
        let l ← liftOpt (render lhsE)
        let r ← liftOpt (render rhsE)
        pure (applyFmt fmtOp.1 l fmtOp.2 r)

/-- build_ast.py BuildASTVisitor.visitAssignmentExpr: assert the operator
token ends in equals; strip it to get the marker; for a compound operator
replace the rhs by the operator call on (a fresh visit of) the lhs and the
rhs - the BuiltinFunction constructor rejects unknown operators with
ValueError - and build the plain AssignmentStatement tagged with the marker. -/
def buildAssignmentExpr (lhs rhs : CExpr) (opText : String) :
    Except String AssignmentStatementS :=
  if opText.data.getLast? ≠ some '=' then .error "assert op ends in equals"
  else
    let op := if opText == "=" then "" else dropLastChar opText
    if op ≠ "" then
      if builtinOpNames.contains op then
        .ok ⟨lhs, .builtinCallE op [lhs, rhs], op⟩
      else .error "is not a known built-in function"
    else .ok ⟨lhs, rhs, ""⟩

/-- build_ast.py BuildASTVisitor._handle_crement_expr: the embedded call adds
or subtracts the literal one, and the marker is the kind (pre or post)
concatenated with the crement token. -/
def handleCrementExpr (e : CExpr) (opTok : String) (kindStr : String) :
    AssignmentStatementS :=
  let op := if opTok == "++" then "+" else "-"
  ⟨e, .builtinCallE op [e, .numberLitE 1 false none none], kindStr ++ opTok⟩

/-- The expected shape of the expanded slice assignment, written from the
claim: the given lines joined by single newlines. -/
def joinedLines : List String → String
  | [] => ""
  | [l] => l
  | l :: ls => l ++ "\n" ++ joinedLines ls

/-! ## General helper lemmas -/

theorem strDataEq {s t : String} (h : s.data = t.data) : s = t := by
  cases s; cases t; exact congrArg String.mk h

theorem dropLastChar_append_newline (s : String) : dropLastChar (s ++ "\n") = s := by
  apply strDataEq
  simp [dropLastChar, String.data_append]

theorem joinedLines_append_single (l : List String) (x : String) (h : l ≠ []) :
    joinedLines (l ++ [x]) = joinedLines l ++ "\n" ++ x := by
  induction l with
  | nil => cases h rfl
  | cons y ys ih =>
      cases ys with
      | nil => simp [joinedLines]
      | cons z zs =>
          have h2 : (z :: zs : List String) ≠ [] := by simp
          have hstep : joinedLines ((y :: z :: zs) ++ [x])
              = y ++ "\n" ++ joinedLines ((z :: zs) ++ [x]) := rfl
          rw [hstep, ih h2]
          apply strDataEq
          simp [joinedLines, String.data_append, List.append_assoc]

theorem sliceConcat_ne_zero (line : Nat → String) (n : Nat) (h : n ≠ 0) :
    sliceConcat line n = joinedLines ((List.range n).map line) ++ "\n" := by
  induction n with
  | zero => cases h rfl
  | succ m ih =>
      by_cases hm : m = 0
      · subst hm
        apply strDataEq
        simp [sliceConcat, joinedLines, String.data_append, List.range_succ]
      · rw [sliceConcat, ih hm, List.range_succ, List.map_append, List.map_cons, List.map_nil,
           joinedLines_append_single _ _ (by simp [hm, List.range_eq_nil])]
        apply strDataEq
        simp [String.data_append, List.append_assoc]

theorem sliceConcat_dropLast (line : Nat → String) (n : Nat) :
    dropLastChar (sliceConcat line n) = joinedLines ((List.range n).map line) := by
  by_cases h : n = 0
  · subst h; rfl
  · rw [sliceConcat_ne_zero line n h, dropLastChar_append_newline]

theorem natBitLen_of_bounds {k n : Nat} (h1 : 2 ^ k ≤ n) (h2 : n < 2 ^ (k + 1)) :
    natBitLen n = k + 1 := by
  have h0 : 0 < n := lt_of_lt_of_le (by positivity) h1
  unfold natBitLen
  rw [if_neg (by omega), Nat.log2_eq_log_two, Nat.log_eq_of_pow_le_of_lt_pow h1 h2]

theorem litBitwidth_pow256 : litBitwidth ((2 : Int) ^ 256) = 264 := by
  have hA : ((2 : Int) ^ 256).natAbs = 2 ^ 256 := by
    rw [Int.natAbs_pow]; rfl
  have hb : natBitLen (2 ^ 256) = 257 :=
    natBitLen_of_bounds (le_refl _) (Nat.pow_lt_pow_right (by norm_num) (Nat.lt_succ_self 256))
  have hneg : ¬ ((2 : Int) ^ 256 < 0) := not_lt.mpr (by positivity)
  simp only [litBitwidth, hA, hb, if_neg hneg]
  norm_num

theorem mkNumberLiteralType_eq (v : Int) :
    mkNumberLiteralType v =
      if 8 ≤ litBitwidth v ∧ litBitwidth v ≤ 256 ∧ litBitwidth v % 8 = 0
      then some (.numLitT v) else none := rfl

/-- The expected shape of an expanded slice-to-slice assignment, written from
the claim: for each i below the size, one plain element assignment indexing
start offset plus i on each side, the lines joined by single newlines. -/
def sliceExpansion (a b : String) (loff roff : Int) (n : Nat) : String :=
  joinedLines ((List.range n).map (fun (i : Nat) =>
    a ++ "[" ++ toString (loff + (i : Int)) ++ "] = " ++
    b ++ "[" ++ toString (roff + (i : Int)) ++ "];"))

theorem slice_general (a b : String) (loff roff : Int) (n : Nat) :
    visitAssignmentStatement ⟨.sliceX (.identifierE a none) none loff n,
      .sliceX (.identifierE b none) none roff n, ""⟩ =
    .ok (sliceExpansion a b loff roff n) := by
  simp [visitAssignmentStatement, annotatedTypeOf, render, liftOpt, strStarts, listStarts,
    Except.bind, bind, pure, Except.pure]
  rw [sliceConcat_dropLast]
  unfold sliceExpansion
  congr 1
  apply List.map_congr_left
  intro i _
  apply strDataEq
  simp [applyFmt, String.data_append]

/-! ## Claim theorems -/

/-- C1: for scalar (non-tuple) annotated types, combined_privacy returns this
side's label expression when both sides resolve to label keys that are equal
or oracle-co-owned; when both resolve, the keys differ and are not co-owned,
and this side is the public AllExpr, it returns the other side's label
expression; in every other case (either side unresolvable, or distinct
non-co-owned keys with a non-public left side) it returns None. -/
theorem combinedPrivacy_spec
    (analysis : Option (PrivacyLabel → PrivacyLabel → Bool))
    (self other : AnnotatedScalar) :
    (∀ pe pa, privacyAnnotLabel other.privAnnot = some pe →
       privacyAnnotLabel self.privAnnot = some pa →
       (pe = pa ∨ samePartition analysis pe pa = true) →
       combinedPrivacy analysis self other = some self.privAnnot)
    ∧ (∀ pe pa, privacyAnnotLabel other.privAnnot = some pe →
       privacyAnnotLabel self.privAnnot = some pa →
       pe ≠ pa → samePartition analysis pe pa = false →
       self.privAnnot = .allE →
       combinedPrivacy analysis self other = some other.privAnnot)
    ∧ ((privacyAnnotLabel other.privAnnot = none ∨ privacyAnnotLabel self.privAnnot = none) →
       combinedPrivacy analysis self other = none)
    ∧ (∀ pe pa, privacyAnnotLabel other.privAnnot = some pe →
       privacyAnnotLabel self.privAnnot = some pa →
       pe ≠ pa → samePartition analysis pe pa = false →
       self.privAnnot ≠ .allE →
       combinedPrivacy analysis self other = none) := by
  refine ⟨?_, ?_, ?_, ?_⟩
  · intro pe pa he ha h
    rcases h with h | h <;> simp [combinedPrivacy, he, ha, h]
  · intro pe pa he ha hne hsp hall
    rw [hall] at ha
    have hpa : pa = PrivacyLabel.allL := by
      simp [privacyAnnotLabel] at ha
      exact ha.symm
    subst hpa
    unfold combinedPrivacy
    rw [hall, he]
    simp only [privacyAnnotLabel]
    simp [hne, hsp, isAllExprB]
  · intro h
    rcases h with h | h <;>
      · unfold combinedPrivacy
        rcases h1 : privacyAnnotLabel other.privAnnot with _ | pe <;>
          rcases h2 : privacyAnnotLabel self.privAnnot with _ | pa <;>
          simp_all
  · intro pe pa he ha hne hsp hall
    have : isAllExprB self.privAnnot = false := by
      cases hx : self.privAnnot <;> simp_all [isAllExprB]
    simp [combinedPrivacy, he, ha, hne, hsp, this]

/-- C1 witness: combining public with caller-private yields caller-private,
and two distinct named-owner labels under an all-false oracle fail. -/
theorem combinedPrivacy_witness :
    combinedPrivacy none ⟨.uintT 0, .allE⟩ ⟨.uintT 0, .meE⟩ = some .meE
    ∧ combinedPrivacy (some fun _ _ => false) ⟨.uintT 0, .idfE 1⟩ ⟨.uintT 0, .idfE 2⟩ = none := by
  constructor
  · exact (combinedPrivacy_spec none ⟨.uintT 0, .allE⟩ ⟨.uintT 0, .meE⟩).2.1
      .meL .allL rfl rfl (by decide) (by decide) rfl
  · exact (combinedPrivacy_spec (some fun _ _ => false) ⟨.uintT 0, .idfE 1⟩ ⟨.uintT 0, .idfE 2⟩).2.2.2
      (.idL 2) (.idL 1) rfl rfl (by decide) rfl (by decide)

/-- C2: combined_type returns whichever side the other converts into, else the
no-common-type sentinel, except that two number literals (or two boolean
literals) yield the still-literal marker when convert_literals is false and
recurse on the widened abstract types when it is true. -/
theorem combinedType_spec :
    (∀ (a b : TyName) (f : Bool),
       (¬ ∃ v w, a = TyName.numLitT v ∧ b = TyName.numLitT w) →
       (¬ ∃ p q, a = TyName.boolLitT p ∧ b = TyName.boolLitT q) →
       combinedType a b f =
         (if implicitlyConvertibleTo b a then CombinedRes.ty a
          else if implicitlyConvertibleTo a b then CombinedRes.ty b
          else CombinedRes.noCommon))
    ∧ (∀ v w, combinedType (.numLitT v) (.numLitT w) false = .stillLit)
    ∧ (∀ v w, combinedType (.numLitT v) (.numLitT w) true =
        combinedType (toAbstractType (.numLitT v)) (toAbstractType (.numLitT w)) true)
    ∧ (∀ p q, combinedType (.boolLitT p) (.boolLitT q) false = .stillLit)
    ∧ (∀ p q, combinedType (.boolLitT p) (.boolLitT q) true =
        combinedType (toAbstractType (.boolLitT p)) (toAbstractType (.boolLitT q)) true) := by
  refine ⟨?_, ?_, ?_, ?_, ?_⟩
  · intro a b f h1 h2
    cases a <;> cases b <;> simp_all [combinedType, combinedBase]
  · intro v w; simp [combinedType]
  · intro v w; simp [combinedType]
  · intro p q; simp [combinedType]
  · intro p q
    simp [combinedType, toAbstractType, combinedBase, implicitlyConvertibleTo, tyNameEq]

/-- C2 witness: int8 and int16 combine to int16 (widening direction), and
uint8 versus int8 has no common type. -/
theorem combinedType_witness :
    combinedType (.intT 8) (.intT 16) true = .ty (.intT 16)
    ∧ combinedType (.uintT 8) (.intT 8) true = .noCommon := by
  constructor
  · rw [combinedType_spec.1 (.intT 8) (.intT 16) true (by simp) (by simp)]
    decide
  · rw [combinedType_spec.1 (.uintT 8) (.intT 8) true (by simp) (by simp)]
    decide

/-- C3 counterexample: at v = 2 to the 256th the derived width is 264, not
256, and construction faults (the assert fails); the width is not clamped. -/
theorem numberLiteral_width_cex :
    litBitwidth ((2 : Int) ^ 256) = 264 ∧ mkNumberLiteralType ((2 : Int) ^ 256) = none := by
  refine ⟨litBitwidth_pow256, ?_⟩
  rw [mkNumberLiteralType_eq, litBitwidth_pow256]
  norm_num

/-- C3 (amended): the derived width is always a multiple of 8 and at least 8
and is the width the literal type records; construction succeeds exactly when
the derived width is at most 256, and faults on the assert (instead of
clamping) when it exceeds 256. -/
theorem numberLiteral_width (v : Int) :
    litBitwidth v % 8 = 0
    ∧ 8 ≤ litBitwidth v
    ∧ elemBitwidth (.numLitT v) = litBitwidth v
    ∧ (mkNumberLiteralType v = some (.numLitT v) ↔ litBitwidth v ≤ 256)
    ∧ (256 < litBitwidth v → mkNumberLiteralType v = none) := by
  have hmod : litBitwidth v % 8 = 0 := by
    unfold litBitwidth
    have h : ∀ k : Nat, max ((k + 7) / 8 * 8) 8 % 8 = 0 := by
      intro k
      rcases le_or_lt ((k + 7) / 8 * 8) 8 with h | h
      · rw [Nat.max_eq_right h]
      · rw [Nat.max_eq_left h.le, Nat.mul_mod_left]
    exact h _
  have hge : 8 ≤ litBitwidth v := by
    unfold litBitwidth
    exact Nat.le_max_right _ 8
  refine ⟨hmod, hge, rfl, ?_, ?_⟩
  · rw [mkNumberLiteralType_eq]
    split_ifs with h
    · exact ⟨fun _ => h.2.1, fun _ => rfl⟩
    · constructor
      · intro hx; cases hx
      · intro hle; exact absurd ⟨hge, hle, hmod⟩ h
  · intro hgt
    rw [mkNumberLiteralType_eq, if_neg (by omega)]

/-- C3 witness: the fault clause applied at the concrete literal 2 to the 256th. -/
theorem numberLiteral_width_witness :
    mkNumberLiteralType ((2 : Int) ^ 256) = none :=
  (numberLiteral_width ((2 : Int) ^ 256)).2.2.2.2 (by rw [litBitwidth_pow256]; norm_num)

/-- C4: can_represent accepts exactly the signed range -(2 pow (w-1)) to
2 pow (w-1) - 1, or the unsigned range 0 to 2 pow w - 1 (so int8 accepts 127
and -128 and rejects 128 and -129), and a number literal implicitly converts
to a concrete non-literal numeric type exactly when that type's range test
accepts its value. -/
theorem canRepresent_range_spec :
    (∀ (t : TyName) (v : Int), isNumberTN t = true →
       (signedTN t = true →
          (canRepresent t v = true ↔
            -((2 : Int) ^ (elemBitwidth t - 1)) ≤ v ∧ v ≤ (2 : Int) ^ (elemBitwidth t - 1) - 1))
       ∧ (signedTN t = false →
          (canRepresent t v = true ↔ 0 ≤ v ∧ v ≤ (2 : Int) ^ elemBitwidth t - 1)))
    ∧ (canRepresent (.intT 8) 127 = true ∧ canRepresent (.intT 8) (-128) = true
       ∧ canRepresent (.intT 8) 128 = false ∧ canRepresent (.intT 8) (-129) = false)
    ∧ (∀ (v : Int) (t : TyName), isNumberTN t = true → isLiteralTN t = false →
       implicitlyConvertibleTo (.numLitT v) t = canRepresent t v) := by
  refine ⟨?_, ⟨by decide, by decide, by decide, by decide⟩, ?_⟩
  · intro t v _
    constructor <;> intro hs <;>
      simp [canRepresent, hs, Bool.and_eq_true, decide_eq_true_eq] <;> omega
  · intro v t h1 h2
    simp [implicitlyConvertibleTo, h1, h2]

/-- C4 witness: the conversion clause and the signed range clause at the
concrete literal 127 against int8. -/
theorem canRepresent_range_witness :
    implicitlyConvertibleTo (.numLitT 127) (.intT 8) = canRepresent (.intT 8) 127
    ∧ (canRepresent (.intT 8) 127 = true ↔
        -((2 : Int) ^ (elemBitwidth (.intT 8) - 1)) ≤ 127
        ∧ (127 : Int) ≤ (2 : Int) ^ (elemBitwidth (.intT 8) - 1) - 1) :=
  ⟨canRepresent_range_spec.2.2 127 (.intT 8) (by decide) (by decide),
   (canRepresent_range_spec.1 (.intT 8) 127 (by decide)).1 (by decide)⟩

/-- C5: instance targets are structural over the (declaration, member-or-key,
index-expression) triple: two distinct identifier expressions resolving to
the same declaration give equal triples with equal hashes; equality is
componentwise; index expressions over the same declared base with different
key expressions give unequal targets sharing the first component. -/
theorem instanceTarget_spec :
    (∀ (n1 n2 d : Nat),
       mkInstanceTarget (.identE n1 (some d)) = some ⟨d, none, none⟩
       ∧ mkInstanceTarget (.identE n1 (some d)) = mkInstanceTarget (.identE n2 (some d))
       ∧ (mkInstanceTarget (.identE n1 (some d))).map instanceTargetHash
           = (mkInstanceTarget (.identE n2 (some d))).map instanceTargetHash)
    ∧ (∀ t1 t2 : InstanceTarget, t1 = t2 ↔
        (t1.target = t2.target ∧ t1.keyPart = t2.keyPart ∧ t1.idxPart = t2.idxPart))
    ∧ (∀ (e1 e2 a1 a2 d k1 k2 : Nat), k1 ≠ k2 →
        mkInstanceTarget (.indexE e1 (.identE a1 (some d)) k1) = some ⟨d, some k1, some e1⟩
        ∧ mkInstanceTarget (.indexE e2 (.identE a2 (some d)) k2) = some ⟨d, some k2, some e2⟩
        ∧ mkInstanceTarget (.indexE e1 (.identE a1 (some d)) k1)
            ≠ mkInstanceTarget (.indexE e2 (.identE a2 (some d)) k2)) := by
  refine ⟨?_, ?_, ?_⟩
  · intro n1 n2 d
    exact ⟨rfl, rfl, rfl⟩
  · intro t1 t2
    constructor
    · intro h; subst h; exact ⟨rfl, rfl, rfl⟩
    · intro ⟨h1, h2, h3⟩
      cases t1; cases t2; simp_all
  · intro e1 e2 a1 a2 d k1 k2 hk
    refine ⟨rfl, rfl, ?_⟩
    simp [mkInstanceTarget, leftmostIdentOf, targetOf, hk]

/-- C5 witness: indexing one declaration with two different keys at concrete
identities gives different targets. -/
theorem instanceTarget_witness :
    mkInstanceTarget (.indexE 10 (.identE 11 (some 5)) 1)
      ≠ mkInstanceTarget (.indexE 12 (.identE 13 (some 5)) 2) :=
  (instanceTarget_spec.2.2 10 12 11 13 5 1 2 (by decide)).2.2

/-- C6: the front end normalizes x += 1 into a plain assignment whose right
side embeds the operator call, tagged with the operator, and the generator
reconstructs exactly x += 1; (never the desugared x = x + 1;); pre and post
crements render their shorthand the same way. -/
theorem compoundAssignment_render :
    buildAssignmentExpr (.identifierE "x" none) (.numberLitE 1 false none none) "+=" =
      .ok ⟨.identifierE "x" none,
           .builtinCallE "+" [.identifierE "x" none, .numberLitE 1 false none none], "+"⟩
    ∧ visitAssignmentStatement ⟨.identifierE "x" none,
        .builtinCallE "+" [.identifierE "x" none, .numberLitE 1 false none none], "+"⟩
        = .ok "x += 1;"
    ∧ visitAssignmentStatement ⟨.identifierE "x" none,
        .builtinCallE "+" [.identifierE "x" none, .numberLitE 1 false none none], "+"⟩
        ≠ .ok "x = x + 1;"
    ∧ visitAssignmentStatement (handleCrementExpr (.identifierE "x" none) "++" "pre")
        = .ok "++x;"
    ∧ visitAssignmentStatement (handleCrementExpr (.identifierE "x" none) "++" "post")
        = .ok "x++;" := by
  refine ⟨rfl, rfl, ?_, rfl, rfl⟩
  intro h
  rw [(rfl : visitAssignmentStatement ⟨.identifierE "x" none,
        .builtinCallE "+" [.identifierE "x" none, .numberLitE 1 false none none], "+"⟩
        = .ok "x += 1;")] at h
  injection h with h
  exact absurd h (by decide)

/-- C6 witness: the pre-crement clause of the theorem. -/
theorem compoundAssignment_render_witness :
    visitAssignmentStatement (handleCrementExpr (.identifierE "x" none) "++" "pre")
      = .ok "++x;" :=
  compoundAssignment_render.2.2.2.1

/-- C7: an assignment between two equal-size slices expands into one plain
element assignment per index, the i-th indexing start offset plus i on each
side; at sizes 3 over offsets 2 and 0 this is exactly the three lines of the
claim; slices of unequal sizes fail the assert. -/
theorem sliceAssignment_expansion :
    (∀ (a b : String) (loff roff : Int) (n : Nat),
       visitAssignmentStatement ⟨.sliceX (.identifierE a none) none loff n,
         .sliceX (.identifierE b none) none roff n, ""⟩ =
       .ok (sliceExpansion a b loff roff n))
    ∧ visitAssignmentStatement ⟨.sliceX (.identifierE "a" none) none 2 3,
        .sliceX (.identifierE "b" none) none 0 3, ""⟩ =
      .ok "a[2] = b[0];\na[3] = b[1];\na[4] = b[2];"
    ∧ (∀ (l r : CExpr) (lb rb : Option CExpr) (loff roff : Int) (n m : Nat), n ≠ m →
        visitAssignmentStatement ⟨.sliceX l lb loff n, .sliceX r rb roff m, ""⟩ =
        .error .sizeMismatch) := by
  refine ⟨slice_general, rfl, ?_⟩
  intro l r lb rb loff roff n m h
  simp [visitAssignmentStatement, annotatedTypeOf, h, Except.bind, bind]

/-- C7 witness: the unequal-size clause applied at sizes 2 and 3. -/
theorem sliceAssignment_witness :
    visitAssignmentStatement ⟨.sliceX (.identifierE "a" none) none 2 2,
      .sliceX (.identifierE "b" none) none 0 3, ""⟩ = .error .sizeMismatch :=
  sliceAssignment_expansion.2.2 (.identifierE "a" none) (.identifierE "b" none)
    none none 2 0 2 3 (by decide)

/-- C8: looking up the key constructor on a contract with no declared
constructor faults on the assert in ConstructorOrFunctionDefinition.__init__
(None identifier) instead of returning the synthesized empty constructor; with
exactly one declared constructor it is returned; with more than one the lookup
raises ValueError. -/
theorem contractConstructor_lookup :
    contractGetConstructor ⟨[.otherU 7, .fn ⟨some 3, "function"⟩]⟩ = .error .assertionFailed
    ∧ contractGetConstructor ⟨[.fn ⟨some 3, "function"⟩, .fn ⟨some 1, "constructor"⟩]⟩
        = .ok ⟨some 1, "constructor"⟩
    ∧ contractGetConstructor ⟨[.fn ⟨some 1, "constructor"⟩, .fn ⟨some 2, "constructor"⟩]⟩
        = .error (.valueError "Multiple constructors exist") :=
  ⟨rfl, rfl, rfl⟩

/-- C9: literal-type equality ignores the carried value: any two
NumberLiteralTypes compare equal, as do any two BooleanLiteralTypes. -/
theorem literalTypeEq_ignores_value :
    (∀ a b : Int, tyNameEq (.numLitT a) (.numLitT b) = true)
    ∧ (∀ p q : Bool, tyNameEq (.boolLitT p) (.boolLitT q) = true) :=
  ⟨fun _ _ => rfl, fun _ _ => rfl⟩

/-- C10: when the left-hand side carries an annotated type with a non-public
label, the generator clears the shorthand marker and prints the desugared
plain form x = x + 1;, while an absent or public annotated type keeps the
shorthand x += 1;. -/
theorem privateLhs_desugars :
    (∀ (t : TyName) (p : PrivacyExpr), p ≠ .allE →
       visitAssignmentStatement ⟨.identifierE "x" (some ⟨t, p⟩),
         .builtinCallE "+" [.identifierE "x" (some ⟨t, p⟩), .numberLitE 1 false none none],
         "+"⟩ = .ok "x = x + 1;")
    ∧ (∀ t : TyName,
       visitAssignmentStatement ⟨.identifierE "x" (some ⟨t, .allE⟩),
         .builtinCallE "+" [.identifierE "x" (some ⟨t, .allE⟩), .numberLitE 1 false none none],
         "+"⟩ = .ok "x += 1;")
    ∧ visitAssignmentStatement ⟨.identifierE "x" none,
        .builtinCallE "+" [.identifierE "x" none, .numberLitE 1 false none none], "+"⟩
        = .ok "x += 1;" := by
  refine ⟨?_, ?_, rfl⟩
  · intro t p hp
    cases p <;> first
      | exact absurd rfl hp
      | rfl
  · intro t; rfl

/-- C10 witness: a caller-private left-hand side renders the desugared form. -/
theorem privateLhs_desugars_witness :
    visitAssignmentStatement ⟨.identifierE "x" (some ⟨.uintT 0, .meE⟩),
      .builtinCallE "+" [.identifierE "x" (some ⟨.uintT 0, .meE⟩), .numberLitE 1 false none none],
      "+"⟩ = .ok "x = x + 1;" :=
  privateLhs_desugars.1 (.uintT 0) .meE (by decide)
